import Mathlib

/-!
Shallow embedding of Kosmonaut's box-tree construction
(`src/layout/box_tree.rs`) and verification of its specification.

The builder itself (`build_box_tree`, `handle_child_node_by_display`,
`build_box_from_display`, `get_or_create_inline_container`,
`create_inline_container`) is translated directly from the source.
Supporting types (`NodeRef`, `Display`, `FormattingContextRef`,
`LayoutBox` and its methods) live outside the provided sources and are
modelled from the spec.  Following the spec's design note ("Shared,
ref-counted formatting contexts ... reimplement as an explicit registry
of context records addressed by a stable identifier (arena + index) ...
preserving same-instance comparisons as identifier equality"),
reference-counted formatting contexts are modelled by threading a
`Nat` allocator: each freshly established context receives the next id,
and "same shared instance" is id equality.  Panics (`unwrap`, `assert!`,
`panic!`) are modelled as a `contractViolation` error and
`unimplemented!()` as a distinct `unsupported` error, so that the
construction pass's fatal aborts are observable results.
-/

namespace Kosmonaut

/-- Modelled from the spec: the two formatting-context kinds of
`layout/formatting_context.rs` (not under the provided sources). -/
inductive FormattingContext where
  | Block : FormattingContext
  | Inline : FormattingContext
deriving DecidableEq, Repr

/-- Modelled from the spec: `QualifiedFormattingContext` from
`layout/formatting_context.rs` — a context kind qualified by whether the
box establishes it (`Independent`) or merely participates in a context
established by an ancestor (`Dependent`). -/
inductive QualifiedFormattingContext where
  | Independent : FormattingContext → QualifiedFormattingContext
  | Dependent : FormattingContext → QualifiedFormattingContext
deriving DecidableEq, Repr

/-- Modelled from the spec: `FormattingContextRef`, a reference-counted
shared handle to a `QualifiedFormattingContext`.  Per the spec's design
note, the shared handle is modelled as a registry identifier `id`
(allocated by a threaded counter); two boxes participate in the same
context instance exactly when their refs are equal (same `id`). -/
structure FormattingContextRef where
  id : Nat
  qfc : QualifiedFormattingContext
deriving DecidableEq, Repr

/-- Modelled from the spec: `FormattingContextRef::new_independent_block`.
Allocates a fresh Independent Block context from allocator state `s`. -/
def FormattingContextRef.newIndependentBlock (s : Nat) :
    FormattingContextRef × Nat :=
  (⟨s, .Independent .Block⟩, s + 1)

/-- Modelled from the spec: `FormattingContextRef::new_independent_inline`.
Allocates a fresh Independent Inline context from allocator state `s`. -/
def FormattingContextRef.newIndependentInline (s : Nat) :
    FormattingContextRef × Nat :=
  (⟨s, .Independent .Inline⟩, s + 1)

/-- Modelled from the spec: `FormattingContextRef::is_inline_formatting_context`
— true when the qualified context is an Independent or Dependent Inline
context. -/
def FormattingContextRef.isInlineFormattingContext
    (r : FormattingContextRef) : Bool :=
  match r.qfc with
  | .Independent .Inline => true
  | .Dependent .Inline => true
  | _ => false

/-- Modelled from the spec: outer display values of
`style/values/computed/display.rs`. -/
inductive OuterDisplay where
  | Block : OuterDisplay
  | Inline : OuterDisplay
deriving DecidableEq, Repr

/-- Modelled from the spec: inner display values of
`style/values/computed/display.rs`. -/
inductive InnerDisplay where
  | Flow : InnerDisplay
  | FlowRoot : InnerDisplay
deriving DecidableEq, Repr

/-- Modelled from the spec: the resolved `Display` computed value —
either a full outer/inner pair (`Display::Full`) or `display: none`
(`Display::Box(DisplayBox::None)`). -/
inductive Display where
  | Full : OuterDisplay → InnerDisplay → Display
  | None : Display
deriving DecidableEq, Repr

/-- Modelled from the spec: the `NodeData` discriminant of the DOM tree
(`dom/tree.rs`): document, element (with its local name), text (with its
content), or doctype. -/
inductive NodeData where
  | Document : NodeData
  | Element : String → NodeData
  | Text : String → NodeData
  | Doctype : NodeData
deriving DecidableEq, Repr

/-- Modelled from the spec: a DOM node handle (`NodeRef`) together with
the style information the builder reads: its data, its resolved
`display` computed value, and its ordered children. -/
inductive Node where
  | mk : NodeData → Display → List Node → Node

/-- The node's data (`node.data()`). -/
def Node.data : Node → NodeData
  | .mk d _ _ => d

/-- The node's resolved display (`node.computed_values().display`). -/
def Node.display : Node → Display
  | .mk _ d _ => d

/-- The node's ordered children (`node.children()`). -/
def Node.children : Node → List Node
  | .mk _ _ c => c

/-- Modelled from the spec: the `LayoutBox` output-tree node of
`layout/layout_box.rs` and `layout/flow/{block,inline}.rs`: block
containers, anonymous block boxes, inline boxes, root inline boxes and
text runs, each holding the source node's data, the formatting context
it participates in (or establishes), and its ordered children. -/
inductive LayoutBox where
  | blockContainer : NodeData → FormattingContextRef → List LayoutBox → LayoutBox
  | anonymousBlock : NodeData → FormattingContextRef → List LayoutBox → LayoutBox
  | inlineBox : NodeData → FormattingContextRef → List LayoutBox → LayoutBox
  | rootInline : NodeData → FormattingContextRef → List LayoutBox → LayoutBox
  | textRun : NodeData → FormattingContextRef → String → LayoutBox

/-- Modelled from the spec: `LayoutBox::formatting_context()` — the
formatting context this box participates in (for boxes that establish
one, the established context). -/
def LayoutBox.formattingContext : LayoutBox → FormattingContextRef
  | .blockContainer _ fc _ => fc
  | .anonymousBlock _ fc _ => fc
  | .inlineBox _ fc _ => fc
  | .rootInline _ fc _ => fc
  | .textRun _ fc _ => fc

/-- The ordered children of a layout box (a text run is a leaf). -/
def LayoutBox.children : LayoutBox → List LayoutBox
  | .blockContainer _ _ cs => cs
  | .anonymousBlock _ _ cs => cs
  | .inlineBox _ _ cs => cs
  | .rootInline _ _ cs => cs
  | .textRun _ _ _ => []

/-- Replace the children of a layout box (no effect on a text run,
which has no child sequence). -/
def LayoutBox.setChildren : LayoutBox → List LayoutBox → LayoutBox
  | .blockContainer n fc _, cs => .blockContainer n fc cs
  | .anonymousBlock n fc _, cs => .anonymousBlock n fc cs
  | .inlineBox n fc _, cs => .inlineBox n fc cs
  | .rootInline n fc _, cs => .rootInline n fc cs
  | .textRun n fc t, _ => .textRun n fc t

/-- Modelled from the spec: `LayoutBox::add_child` — append a box to the
end of this box's child sequence. -/
def LayoutBox.addChild (b : LayoutBox) (child : LayoutBox) : LayoutBox :=
  b.setChildren (b.children ++ [child])

/-- Whether this box is an anonymous block box. -/
def LayoutBox.isAnonymousBlock : LayoutBox → Bool
  | .anonymousBlock _ _ _ => true
  | _ => false

/-- Whether this box is a root inline box. -/
def LayoutBox.isRootInline : LayoutBox → Bool
  | .rootInline _ _ _ => true
  | _ => false

/-- Whether this box is a text run (a leaf that cannot host children). -/
def LayoutBox.isTextRun : LayoutBox → Bool
  | .textRun _ _ _ => true
  | _ => false

/-- Modelled from the spec: `LayoutBox::get_mut_inline_container` (not
under the provided sources).  The designated "current inline container"
is transient and recomputed on demand: it is the root inline box inside
the box's *last* child when that child is an anonymous block box
(appending a block-level child therefore invalidates it), and absent
otherwise.  Inline-level boxes and text runs are appended into that root
inline box, yielding the spec's
anonymous-block-containing-root-inline structure. -/
def LayoutBox.getInlineContainer (b : LayoutBox) : Option LayoutBox :=
  match b.children.getLast? with
  | some lc =>
    if lc.isAnonymousBlock then
      match lc.children.head? with
      | some r => if r.isRootInline then some r else none
      | none => none
    else none
  | none => none

/-- Modelled from the spec: mutation through
`LayoutBox::get_mut_inline_container` — apply `f` to the current inline
container (the root inline box inside the last child when that child is
an anonymous block box), writing the result back in place.  When no
current inline container exists the box is unchanged. -/
def LayoutBox.mapInlineContainer (b : LayoutBox) (f : LayoutBox → LayoutBox) :
    LayoutBox :=
  match b.children.getLast? with
  | some lc =>
    if lc.isAnonymousBlock then
      match lc.children with
      | r :: rest =>
        if r.isRootInline then
          b.setChildren (b.children.dropLast ++ [lc.setChildren (f r :: rest)])
        else b
      | [] => b
    else b
  | none => b

/-- Modelled from the spec: `LayoutBox::create_root_inline_box` — a root
inline box for the given node participating in the given context. -/
def LayoutBox.createRootInlineBox (node : NodeData)
    (fc : FormattingContextRef) : LayoutBox :=
  .rootInline node fc []

/-- Modelled from the spec: Rust's `str::trim` — the string with leading
and trailing whitespace removed, computed over the character list. -/
def trimString (t : String) : String :=
  String.mk
    (((t.data.dropWhile Char.isWhitespace).reverse.dropWhile
      Char.isWhitespace).reverse)

/-- The error outcomes of a construction pass.  In the Rust source both
are process-aborting panics, with distinct panic kinds:
`contractViolation` models `unwrap`/`assert!`/`panic!` (malformed
context offers) and `unsupported` models `unimplemented!()`
(inline-outer/flow-root-inner boxes). -/
inductive BuildError where
  | contractViolation : BuildError
  | unsupported : BuildError
deriving DecidableEq, Repr

/-- `create_inline_container` (box_tree.rs:202-211): an anonymous block
box establishing a fresh Independent Inline context, pre-populated with
one root inline box participating in that same context. -/
def createInlineContainer (node : Node) (s : Nat) : LayoutBox × Nat :=
  let p := FormattingContextRef.newIndependentInline s
  let anonymousBlockBox := LayoutBox.anonymousBlock node.data p.1 []
  (anonymousBlockBox.addChild
    (LayoutBox.createRootInlineBox node.data anonymousBlockBox.formattingContext),
   p.2)

/-- `get_or_create_inline_container` (box_tree.rs:189-200): if the box
does not already hold a current inline container, create one and append
it as the next child; the follow-up lookup (`.unwrap()` in the source)
is performed by the callers via `LayoutBox.getInlineContainer`. -/
def getOrCreateInlineContainer (layoutBox : LayoutBox)
    (nodeForContainer : Node) (s : Nat) : LayoutBox × Nat :=
  if (layoutBox.getInlineContainer).isSome then (layoutBox, s)
  else
    let p := createInlineContainer nodeForContainer s
    (layoutBox.addChild p.1, p.2)

/-- `build_box_from_display` (box_tree.rs:127-187): classify a node by
its resolved display and the offered formatting context, producing a
childless box, no box (display none), or a fatal error. -/
def buildBoxFromDisplay (node : Node)
    (parentContext : Option FormattingContextRef) (s : Nat) :
    Except BuildError (Option LayoutBox × Nat) :=
  match node.display with
  | .Full .Block .Flow =>
    match parentContext with
    | some rcQfc =>
      match rcQfc.qfc with
      | .Independent .Block =>
        .ok (some (.blockContainer node.data rcQfc []), s)
      | .Dependent .Block =>
        .ok (some (.blockContainer node.data rcQfc []), s)
      | _ =>
        let p := FormattingContextRef.newIndependentBlock s
        .ok (some (.blockContainer node.data p.1 []), p.2)
    | none =>
      let p := FormattingContextRef.newIndependentBlock s
      .ok (some (.blockContainer node.data p.1 []), p.2)
  | .Full .Block .FlowRoot =>
    let p := FormattingContextRef.newIndependentBlock s
    .ok (some (.blockContainer node.data p.1 []), p.2)
  | .Full .Inline .Flow =>
    match parentContext with
    | some rcQfc =>
      match rcQfc.qfc with
      | .Independent .Inline =>
        .ok (some (.inlineBox node.data rcQfc []), s)
      | .Dependent .Inline =>
        .ok (some (.inlineBox node.data rcQfc []), s)
      | _ => .error .contractViolation
    | none => .error .contractViolation
  | .Full .Inline .FlowRoot => .error .unsupported
  | .None => .ok (none, s)

/-- The predicate locating the markup root: an element child whose local
name is "html" (box_tree.rs:41-44). -/
def isHtmlElement (child : Node) : Bool :=
  match child.data with
  | .Element name => name = "html"
  | _ => false

mutual

/-- `build_box_tree` (box_tree.rs:24-90): build the box tree for a node
given the formatting context its boxes should join (`none` means the
node is expected to establish one).  The document case skips to the root
html element; a text node yields a text run of its trimmed, non-empty
contents (requiring an offered inline context); otherwise the node is
classified via `buildBoxFromDisplay` and children are attached by
`buildChildren`. -/
def buildBoxTree (node : Node)
    (parentContext : Option FormattingContextRef) (s : Nat) :
    Except BuildError (Option LayoutBox × Nat) :=
  match node.data with
  | .Document =>
    match hfind : node.children.find? isHtmlElement with
    | some htmlNode => buildBoxTree htmlNode none s
    | none => .ok (none, s)
  | .Text text =>
    let contents := trimString text
    if contents.isEmpty then .ok (none, s)
    else
      match parentContext with
      | none => .error .contractViolation
      | some pfc =>
        if pfc.isInlineFormattingContext then
          buildChildren (.textRun node.data pfc contents) node.children s
        else .error .contractViolation
  | _ =>
    match buildBoxFromDisplay node parentContext s with
    | .error e => .error e
    | .ok (none, s1) => .ok (none, s1)
    | .ok (some layoutBox, s1) => buildChildren layoutBox node.children s1
termination_by sizeOf node
decreasing_by
  · have hmem := List.sizeOf_lt_of_mem (List.mem_of_find?_eq_some hfind)
    cases node with
    | mk d disp cs => simp [Node.children] at hmem ⊢; try omega
  · cases node with
    | mk d disp cs => simp [Node.children]; try omega
  · cases node with
    | mk d disp cs => simp [Node.children]; try omega

/-- The child loop of `build_box_tree` (box_tree.rs:66-88) with
`handle_child_node_by_display` (box_tree.rs:92-125) inlined: text
children with non-empty trimmed contents become text runs in the current
inline container; element children are dispatched on their display —
block-outer children recurse with this box's context and are appended
directly, inline-outer/flow children recurse with the inline container's
context and are appended into the container, inline-outer/flow-root
children are unsupported, and display-none children are skipped. -/
def buildChildren (parentBox : LayoutBox) (childNodes : List Node) (s : Nat) :
    Except BuildError (Option LayoutBox × Nat) :=
  match childNodes with
  | [] => .ok (some parentBox, s)
  | child :: rest =>
    match child.data with
    | .Text text =>
      let contents := trimString text
      if contents.isEmpty then buildChildren parentBox rest s
      else
        let p := getOrCreateInlineContainer parentBox child s
        match p.1.getInlineContainer with
        | none => .error .contractViolation
        | some inlineContainer =>
          buildChildren
            (p.1.mapInlineContainer
              (·.addChild
                (.textRun child.data inlineContainer.formattingContext contents)))
            rest p.2
    | _ =>
      match child.display with
      | .Full .Block .Flow =>
        match buildBoxTree child (some parentBox.formattingContext) s with
        | .error e => .error e
        | .ok (none, s1) => buildChildren parentBox rest s1
        | .ok (some childBox, s1) =>
          buildChildren (parentBox.addChild childBox) rest s1
      | .Full .Block .FlowRoot =>
        match buildBoxTree child (some parentBox.formattingContext) s with
        | .error e => .error e
        | .ok (none, s1) => buildChildren parentBox rest s1
        | .ok (some childBox, s1) =>
          buildChildren (parentBox.addChild childBox) rest s1
      | .Full .Inline .Flow =>
        let p := getOrCreateInlineContainer parentBox child s
        match p.1.getInlineContainer with
        | none => .error .contractViolation
        | some inlineContainer =>
          match buildBoxTree child
              (some inlineContainer.formattingContext) p.2 with
          | .error e => .error e
          | .ok (none, s1) => buildChildren p.1 rest s1
          | .ok (some childBox, s1) =>
            buildChildren (p.1.mapInlineContainer (·.addChild childBox)) rest s1
      | .Full .Inline .FlowRoot => .error .unsupported
      | .None => buildChildren parentBox rest s
termination_by sizeOf childNodes
decreasing_by all_goals (simp; try omega)

end

/-- Setting the children of a box does not change the formatting context
it participates in. -/
theorem setChildren_formattingContext (b : LayoutBox) (cs : List LayoutBox) :
    (b.setChildren cs).formattingContext = b.formattingContext := by
  cases b <;> rfl

/-- Appending a child does not change the box's formatting context. -/
theorem addChild_formattingContext (b child : LayoutBox) :
    (b.addChild child).formattingContext = b.formattingContext := by
  cases b <;> rfl

/-- Updating the current inline container does not change the parent
box's formatting context. -/
theorem mapInlineContainer_formattingContext (b : LayoutBox)
    (f : LayoutBox → LayoutBox) :
    (b.mapInlineContainer f).formattingContext = b.formattingContext := by
  unfold LayoutBox.mapInlineContainer
  repeat' split
  all_goals first
  | rfl
  | exact setChildren_formattingContext ..

/-- Obtaining the current inline container (creating it if necessary)
does not change the parent box's formatting context. -/
theorem getOrCreate_formattingContext (b : LayoutBox) (n : Node) (s : Nat) :
    (getOrCreateInlineContainer b n s).1.formattingContext
      = b.formattingContext := by
  unfold getOrCreateInlineContainer
  split
  · rfl
  · exact addChild_formattingContext ..

/-- The child loop only appends children: a successful run returns a box
with the same formatting context the parent box started with (and never
returns "no box"). -/
theorem buildChildren_formattingContext (cs : List Node) :
    ∀ (pb : LayoutBox) (s : Nat) (res : Option LayoutBox) (s1 : Nat),
      buildChildren pb cs s = .ok (res, s1) →
      ∃ pb1, res = some pb1 ∧
        pb1.formattingContext = pb.formattingContext := by
  induction cs with
  | nil =>
    intro pb s res s1 h
    simp only [buildChildren] at h
    obtain ⟨h1, h2⟩ := by simpa using h
    exact ⟨pb, h1.symm, rfl⟩
  | cons child rest ih =>
    intro pb s res s1 h
    simp only [buildChildren] at h
    split at h
    · split at h
      · exact ih _ _ _ _ h
      · split at h
        · exact absurd h (by simp)
        · obtain ⟨pb1, hres, hfc⟩ := ih _ _ _ _ h
          refine ⟨pb1, hres, ?_⟩
          rw [hfc, mapInlineContainer_formattingContext,
            getOrCreate_formattingContext]
    · split at h
      · split at h
        · exact absurd h (by simp)
        · exact ih _ _ _ _ h
        · obtain ⟨pb1, hres, hfc⟩ := ih _ _ _ _ h
          exact ⟨pb1, hres, by rw [hfc, addChild_formattingContext]⟩
      · split at h
        · exact absurd h (by simp)
        · exact ih _ _ _ _ h
        · obtain ⟨pb1, hres, hfc⟩ := ih _ _ _ _ h
          exact ⟨pb1, hres, by rw [hfc, addChild_formattingContext]⟩
      · split at h
        · exact absurd h (by simp)
        · split at h
          · exact absurd h (by simp)
          · obtain ⟨pb1, hres, hfc⟩ := ih _ _ _ _ h
            refine ⟨pb1, hres, ?_⟩
            rw [hfc, getOrCreate_formattingContext]
          · obtain ⟨pb1, hres, hfc⟩ := ih _ _ _ _ h
            refine ⟨pb1, hres, ?_⟩
            rw [hfc, mapInlineContainer_formattingContext,
              getOrCreate_formattingContext]
      · exact absurd h (by simp)
      · exact ih _ _ _ _ h

/-- A context ref reports inline exactly when its qualified context is an
Independent or Dependent Inline context. -/
theorem isInline_true_iff (r : FormattingContextRef) :
    r.isInlineFormattingContext = true ↔
      r.qfc = .Independent .Inline ∨ r.qfc = .Dependent .Inline := by
  unfold FormattingContextRef.isInlineFormattingContext
  rcases r with ⟨i, q⟩
  rcases q with k | k <;> rcases k <;> simp

/-- A context ref reports non-inline exactly when its qualified context
is an Independent or Dependent Block context. -/
theorem isInline_false_iff (r : FormattingContextRef) :
    r.isInlineFormattingContext = false ↔
      r.qfc = .Independent .Block ∨ r.qfc = .Dependent .Block := by
  unfold FormattingContextRef.isInlineFormattingContext
  rcases r with ⟨i, q⟩
  rcases q with k | k <;> rcases k <;> simp

/-- On an element node, `buildBoxTree` classifies the node via
`buildBoxFromDisplay` and then attaches children. -/
theorem buildBoxTree_element (node : Node) (name : String)
    (h : node.data = .Element name) (pc : Option FormattingContextRef)
    (s : Nat) :
    buildBoxTree node pc s
      = match buildBoxFromDisplay node pc s with
        | .error e => .error e
        | .ok (none, s1) => .ok (none, s1)
        | .ok (some lb, s1) => buildChildren lb node.children s1 := by
  rw [buildBoxTree.eq_def, h]

/-- A block-outer/flow-inner node offered an Independent or Dependent
Block context joins it: the produced block container holds that very
context ref and no fresh context is allocated. -/
theorem buildBoxFromDisplay_block_flow_join (node : Node)
    (r : FormattingContextRef) (s : Nat)
    (hdisp : node.display = .Full .Block .Flow)
    (hr : r.qfc = .Independent .Block ∨ r.qfc = .Dependent .Block) :
    buildBoxFromDisplay node (some r) s
      = .ok (some (.blockContainer node.data r []), s) := by
  unfold buildBoxFromDisplay
  rw [hdisp]
  rcases r with ⟨ri, rq⟩
  rcases hr with h | h <;> (dsimp only at h; subst h; rfl)

/-- The last element of a list with an appended singleton. -/
theorem getLast_append_single {α : Type} (l : List α) (c : α) :
    (l ++ [c]).getLast? = some c := by
  simp

/-- For any box that can host children, `addChild` appends at the end of
the child sequence. -/
theorem children_addChild (pb : LayoutBox) (hpb : pb.isTextRun = false)
    (c : LayoutBox) :
    (pb.addChild c).children = pb.children ++ [c] := by
  cases pb <;> first
  | rfl
  | exact absurd hpb (by simp [LayoutBox.isTextRun])

/-- C1: for a block container whose child nodes are an inline-level
element, the text "x", a block-level element and another inline-level
element, the built child sequence is: an anonymous block (establishing a
fresh Independent Inline context) whose root inline box contains the
inline box and the text run "x"; then the block box; then a second,
distinct anonymous block for the trailing inline box — the intervening
block-level box terminates reuse of the first container, so two distinct
anonymous containers result. -/
theorem claim1_anonymous_container_grouping (p a b c : String)
    (d : Display) (r : FormattingContextRef)
    (hr : r.qfc = .Independent .Block ∨ r.qfc = .Dependent .Block)
    (s : Nat) :
    buildBoxTree (Node.mk (.Element p) (.Full .Block .Flow)
      [Node.mk (.Element a) (.Full .Inline .Flow) [],
       Node.mk (.Text "x") d [],
       Node.mk (.Element b) (.Full .Block .Flow) [],
       Node.mk (.Element c) (.Full .Inline .Flow) []])
      (some r) s
    = .ok (some (.blockContainer (.Element p) r
        [.anonymousBlock (.Element a) ⟨s, .Independent .Inline⟩
          [.rootInline (.Element a) ⟨s, .Independent .Inline⟩
            [.inlineBox (.Element a) ⟨s, .Independent .Inline⟩ [],
             .textRun (.Text "x") ⟨s, .Independent .Inline⟩ "x"]],
         .blockContainer (.Element b) r [],
         .anonymousBlock (.Element c) ⟨s + 1, .Independent .Inline⟩
          [.rootInline (.Element c) ⟨s + 1, .Independent .Inline⟩
            [.inlineBox (.Element c) ⟨s + 1, .Independent .Inline⟩ []]]]),
      s + 2)
    ∧ (FormattingContextRef.mk s (.Independent .Inline)
        ≠ FormattingContextRef.mk (s + 1) (.Independent .Inline)) := by
  have hx : trimString "x" = "x" := by decide
  have hx2 : ("x" : String).isEmpty = false := by decide
  constructor
  · rcases r with ⟨ri, rq⟩
    rcases hr with h | h <;> (dsimp only at h; subst h) <;>
      simp [buildBoxTree, buildChildren, buildBoxFromDisplay,
        getOrCreateInlineContainer, createInlineContainer,
        LayoutBox.getInlineContainer, LayoutBox.mapInlineContainer,
        LayoutBox.addChild, LayoutBox.setChildren, LayoutBox.children,
        LayoutBox.formattingContext, LayoutBox.isAnonymousBlock,
        LayoutBox.isRootInline, LayoutBox.createRootInlineBox,
        FormattingContextRef.newIndependentBlock,
        FormattingContextRef.newIndependentInline,
        FormattingContextRef.isInlineFormattingContext,
        Node.data, Node.display, Node.children, isHtmlElement, hx, hx2]
  · intro he
    have h2 : s = s + 1 := congrArg FormattingContextRef.id he
    omega

/-- Witness for C1 at a concrete input: body with span, "x", div, em,
offered the Independent Block context with registry id 0, allocator at
1. -/
theorem claim1_anonymous_container_grouping_witness :
    buildBoxTree (Node.mk (.Element "body") (.Full .Block .Flow)
      [Node.mk (.Element "span") (.Full .Inline .Flow) [],
       Node.mk (.Text "x") (.Full .Inline .Flow) [],
       Node.mk (.Element "div") (.Full .Block .Flow) [],
       Node.mk (.Element "em") (.Full .Inline .Flow) []])
      (some ⟨0, .Independent .Block⟩) 1
    = .ok (some (.blockContainer (.Element "body")
        ⟨0, .Independent .Block⟩
        [.anonymousBlock (.Element "span") ⟨1, .Independent .Inline⟩
          [.rootInline (.Element "span") ⟨1, .Independent .Inline⟩
            [.inlineBox (.Element "span") ⟨1, .Independent .Inline⟩ [],
             .textRun (.Text "x") ⟨1, .Independent .Inline⟩ "x"]],
         .blockContainer (.Element "div") ⟨0, .Independent .Block⟩ [],
         .anonymousBlock (.Element "em") ⟨2, .Independent .Inline⟩
          [.rootInline (.Element "em") ⟨2, .Independent .Inline⟩
            [.inlineBox (.Element "em") ⟨2, .Independent .Inline⟩ []]]]),
      3)
    ∧ (FormattingContextRef.mk 1 (.Independent .Inline)
        ≠ FormattingContextRef.mk 2 (.Independent .Inline)) :=
  claim1_anonymous_container_grouping "body" "span" "div" "em"
    (.Full .Inline .Flow) ⟨0, .Independent .Block⟩ (Or.inl rfl) 1

/-- C2: a block-outer/flow-inner node offered an Independent or
Dependent Block context joins that very context instance (and the box
built for the node participates in it); offered no context, or an
Inline context, it instead establishes a fresh Independent Block
context (newly allocated registry id, allocator bumped). -/
theorem claim2_block_flow_context_policy (node : Node) (name : String)
    (r : FormattingContextRef) (s : Nat)
    (hname : node.data = .Element name)
    (hdisp : node.display = .Full .Block .Flow) :
    (r.qfc = .Independent .Block ∨ r.qfc = .Dependent .Block →
      buildBoxFromDisplay node (some r) s
        = .ok (some (.blockContainer node.data r []), s)
      ∧ (∀ b s1, buildBoxTree node (some r) s = .ok (some b, s1) →
          b.formattingContext = r))
    ∧ (buildBoxFromDisplay node none s
        = .ok (some (.blockContainer node.data
            ⟨s, .Independent .Block⟩ []), s + 1))
    ∧ (r.qfc = .Independent .Inline ∨ r.qfc = .Dependent .Inline →
      buildBoxFromDisplay node (some r) s
        = .ok (some (.blockContainer node.data
            ⟨s, .Independent .Block⟩ []), s + 1)) := by
  refine ⟨?_, ?_, ?_⟩
  · intro hr
    have hjoin := buildBoxFromDisplay_block_flow_join node r s hdisp hr
    refine ⟨hjoin, ?_⟩
    intro b s1 e
    rw [buildBoxTree_element node name hname, hjoin] at e
    obtain ⟨b1, hb1, hfc⟩ := buildChildren_formattingContext _ _ _ _ _ e
    cases hb1
    exact hfc.trans rfl
  · unfold buildBoxFromDisplay
    rw [hdisp]
    rfl
  · intro hr
    unfold buildBoxFromDisplay
    rw [hdisp]
    rcases r with ⟨ri, rq⟩
    rcases hr with h | h <;> (dsimp only at h; subst h; rfl)

/-- Witness for C2 at concrete inputs: a div joins an offered Dependent
Block context unchanged; with no offered context or an offered inline
context it establishes the fresh Independent Block context id 5. -/
theorem claim2_block_flow_context_policy_witness :
    buildBoxFromDisplay (Node.mk (.Element "div") (.Full .Block .Flow) [])
      (some ⟨4, .Dependent .Block⟩) 5
    = .ok (some (.blockContainer (.Element "div")
        ⟨4, .Dependent .Block⟩ []), 5)
    ∧ buildBoxFromDisplay (Node.mk (.Element "div") (.Full .Block .Flow) [])
      none 5
    = .ok (some (.blockContainer (.Element "div")
        ⟨5, .Independent .Block⟩ []), 6)
    ∧ buildBoxFromDisplay (Node.mk (.Element "div") (.Full .Block .Flow) [])
      (some ⟨9, .Dependent .Inline⟩) 5
    = .ok (some (.blockContainer (.Element "div")
        ⟨5, .Independent .Block⟩ []), 6) :=
  ⟨((claim2_block_flow_context_policy
      (Node.mk (.Element "div") (.Full .Block .Flow) []) "div"
      ⟨4, .Dependent .Block⟩ 5 rfl rfl).1 (Or.inr rfl)).1,
   (claim2_block_flow_context_policy
      (Node.mk (.Element "div") (.Full .Block .Flow) []) "div"
      ⟨4, .Dependent .Block⟩ 5 rfl rfl).2.1,
   (claim2_block_flow_context_policy
      (Node.mk (.Element "div") (.Full .Block .Flow) []) "div"
      ⟨9, .Dependent .Inline⟩ 5 rfl rfl).2.2 (Or.inr rfl)⟩

/-- C3: a node requiring an inline box — a text node with non-empty
trimmed content, or an element with outer Inline and inner Flow — whose
offered context is absent or not an Independent-or-Dependent Inline
context makes the whole construction pass abort with a contract
violation (a fatal error result, not a "no box" result); when an Inline
context is offered, the inline box or text run participates in that
same context instance. -/
theorem claim3_inline_contract_violation :
    (∀ (node : Node) (t : String) (r : FormattingContextRef) (s : Nat),
      node.data = .Text t → (trimString t).isEmpty = false →
      (buildBoxTree node none s = .error .contractViolation)
      ∧ (r.isInlineFormattingContext = false →
          buildBoxTree node (some r) s = .error .contractViolation)
      ∧ (r.isInlineFormattingContext = true →
          ∀ b s1, buildBoxTree node (some r) s = .ok (some b, s1) →
            b.formattingContext = r))
    ∧ (∀ (node : Node) (name : String) (r : FormattingContextRef) (s : Nat),
      node.data = .Element name → node.display = .Full .Inline .Flow →
      (buildBoxTree node none s = .error .contractViolation)
      ∧ (r.isInlineFormattingContext = false →
          buildBoxTree node (some r) s = .error .contractViolation)
      ∧ (r.isInlineFormattingContext = true →
          buildBoxFromDisplay node (some r) s
            = .ok (some (.inlineBox node.data r []), s)
          ∧ (∀ b s1, buildBoxTree node (some r) s = .ok (some b, s1) →
              b.formattingContext = r))) := by
  constructor
  · intro node t r s hdata hne
    refine ⟨?_, ?_, ?_⟩
    · rw [buildBoxTree.eq_def]
      simp [hdata, hne]
    · intro hrf
      rw [buildBoxTree.eq_def]
      simp [hdata, hne, hrf]
    · intro hri b s1 e
      rw [buildBoxTree.eq_def] at e
      simp only [hdata, hne, hri, Bool.false_eq_true, if_false,
        if_true] at e
      obtain ⟨b1, hb1, hfc⟩ := buildChildren_formattingContext _ _ _ _ _ e
      cases hb1
      exact hfc.trans rfl
  · intro node name r s hname hdisp
    refine ⟨?_, ?_, ?_⟩
    · rw [buildBoxTree_element node name hname]
      unfold buildBoxFromDisplay
      rw [hdisp]
    · intro hrf
      have hr := (isInline_false_iff r).mp hrf
      rw [buildBoxTree_element node name hname]
      unfold buildBoxFromDisplay
      rw [hdisp]
      rcases r with ⟨ri, rq⟩
      rcases hr with h | h <;> (dsimp only at h; subst h; rfl)
    · intro hri
      have hr := (isInline_true_iff r).mp hri
      have hfd : buildBoxFromDisplay node (some r) s
          = .ok (some (.inlineBox node.data r []), s) := by
        unfold buildBoxFromDisplay
        rw [hdisp]
        rcases r with ⟨ri, rq⟩
        rcases hr with h | h <;> (dsimp only at h; subst h; rfl)
      refine ⟨hfd, ?_⟩
      intro b s1 e
      rw [buildBoxTree_element node name hname, hfd] at e
      obtain ⟨b1, hb1, hfc⟩ := buildChildren_formattingContext _ _ _ _ _ e
      cases hb1
      exact hfc.trans rfl

/-- Witness for C3 at concrete inputs: the text "y" and a span with no
offered context or a block context abort with a contract violation; a
span offered the Dependent Inline context id 7 joins it. -/
theorem claim3_inline_contract_violation_witness :
    buildBoxTree (Node.mk (.Text "y") (.Full .Inline .Flow) []) none 0
      = .error .contractViolation
    ∧ buildBoxTree (Node.mk (.Text "y") (.Full .Inline .Flow) [])
        (some ⟨2, .Independent .Block⟩) 0 = .error .contractViolation
    ∧ buildBoxTree (Node.mk (.Element "span") (.Full .Inline .Flow) [])
        none 0 = .error .contractViolation
    ∧ buildBoxTree (Node.mk (.Element "span") (.Full .Inline .Flow) [])
        (some ⟨2, .Independent .Block⟩) 0 = .error .contractViolation
    ∧ buildBoxFromDisplay
        (Node.mk (.Element "span") (.Full .Inline .Flow) [])
        (some ⟨7, .Dependent .Inline⟩) 3
      = .ok (some (.inlineBox (.Element "span")
          ⟨7, .Dependent .Inline⟩ []), 3) :=
  ⟨(claim3_inline_contract_violation.1
      (Node.mk (.Text "y") (.Full .Inline .Flow) []) "y"
      ⟨2, .Independent .Block⟩ 0 rfl (by decide)).1,
   (claim3_inline_contract_violation.1
      (Node.mk (.Text "y") (.Full .Inline .Flow) []) "y"
      ⟨2, .Independent .Block⟩ 0 rfl (by decide)).2.1 rfl,
   (claim3_inline_contract_violation.2
      (Node.mk (.Element "span") (.Full .Inline .Flow) []) "span"
      ⟨2, .Independent .Block⟩ 0 rfl rfl).1,
   (claim3_inline_contract_violation.2
      (Node.mk (.Element "span") (.Full .Inline .Flow) []) "span"
      ⟨2, .Independent .Block⟩ 0 rfl rfl).2.1 rfl,
   ((claim3_inline_contract_violation.2
      (Node.mk (.Element "span") (.Full .Inline .Flow) []) "span"
      ⟨7, .Dependent .Inline⟩ 3 rfl rfl).2.2 rfl).1⟩

/-- C4: sibling block-outer/flow-inner element nodes built as children
of a common block container that offers them its own block-qualified
formatting context all produce boxes whose participates-in context is
that single shared instance — their context refs are all equal to the
parent box's ref and hence to each other, and none establishes its
own. -/
theorem claim4_sibling_context_sharing (pb : LayoutBox)
    (hpb : pb.formattingContext.qfc = .Independent .Block ∨
      pb.formattingContext.qfc = .Dependent .Block)
    (n1 n2 : Node) (nm1 nm2 : String)
    (h1 : n1.data = .Element nm1) (h2 : n2.data = .Element nm2)
    (hd1 : n1.display = .Full .Block .Flow)
    (hd2 : n2.display = .Full .Block .Flow)
    (s1 s2 t1 t2 : Nat) (b1 b2 : LayoutBox)
    (e1 : buildBoxTree n1 (some pb.formattingContext) s1
      = .ok (some b1, t1))
    (e2 : buildBoxTree n2 (some pb.formattingContext) s2
      = .ok (some b2, t2)) :
    b1.formattingContext = pb.formattingContext
    ∧ b2.formattingContext = pb.formattingContext
    ∧ b1.formattingContext = b2.formattingContext := by
  rw [buildBoxTree_element n1 nm1 h1,
    buildBoxFromDisplay_block_flow_join n1 _ _ hd1 hpb] at e1
  rw [buildBoxTree_element n2 nm2 h2,
    buildBoxFromDisplay_block_flow_join n2 _ _ hd2 hpb] at e2
  obtain ⟨c1, hc1, hfc1⟩ := buildChildren_formattingContext _ _ _ _ _ e1
  obtain ⟨c2, hc2, hfc2⟩ := buildChildren_formattingContext _ _ _ _ _ e2
  cases hc1
  cases hc2
  exact ⟨hfc1.trans rfl, hfc2.trans rfl,
    (hfc1.trans rfl).trans (hfc2.trans rfl).symm⟩

/-- Witness for C4 at concrete inputs: a div and a p built as children
of a body block container with context id 0 both come back holding
context id 0. -/
theorem claim4_sibling_context_sharing_witness :
    (LayoutBox.blockContainer (.Element "div")
        ⟨0, .Independent .Block⟩ []).formattingContext
      = (LayoutBox.blockContainer (.Element "body")
          ⟨0, .Independent .Block⟩ []).formattingContext
    ∧ (LayoutBox.blockContainer (.Element "p")
        ⟨0, .Independent .Block⟩ []).formattingContext
      = (LayoutBox.blockContainer (.Element "body")
          ⟨0, .Independent .Block⟩ []).formattingContext
    ∧ (LayoutBox.blockContainer (.Element "div")
        ⟨0, .Independent .Block⟩ []).formattingContext
      = (LayoutBox.blockContainer (.Element "p")
          ⟨0, .Independent .Block⟩ []).formattingContext :=
  claim4_sibling_context_sharing
    (.blockContainer (.Element "body") ⟨0, .Independent .Block⟩ [])
    (Or.inl rfl)
    (Node.mk (.Element "div") (.Full .Block .Flow) [])
    (Node.mk (.Element "p") (.Full .Block .Flow) [])
    "div" "p" rfl rfl rfl rfl 1 1 1 1
    (.blockContainer (.Element "div") ⟨0, .Independent .Block⟩ [])
    (.blockContainer (.Element "p") ⟨0, .Independent .Block⟩ [])
    (by simp [buildBoxTree, buildChildren, buildBoxFromDisplay,
      LayoutBox.formattingContext, Node.data, Node.display,
      Node.children])
    (by simp [buildBoxTree, buildChildren, buildBoxFromDisplay,
      LayoutBox.formattingContext, Node.data, Node.display,
      Node.children])

/-- C5: a text node whose trimmed content is empty yields no box,
whatever context is offered and without touching the allocator; for
every text content whose trimmed form is non-empty, an offered inline
context yields a text run whose content is exactly the trimmed text
(so "  hello  " yields exactly "hello"). -/
theorem claim5_text_trimming :
    (∀ (node : Node) (t : String) (pc : Option FormattingContextRef)
      (s : Nat), node.data = .Text t → (trimString t).isEmpty = true →
      buildBoxTree node pc s = .ok (none, s))
    ∧ (∀ (node : Node) (t : String) (r : FormattingContextRef) (s : Nat),
      node.data = .Text t → (trimString t).isEmpty = false →
      node.children = [] → r.isInlineFormattingContext = true →
      buildBoxTree node (some r) s
        = .ok (some (.textRun node.data r (trimString t)), s)) := by
  constructor
  · intro node t pc s hdata hempty
    rw [buildBoxTree.eq_def]
    simp [hdata, hempty]
  · intro node t r s hdata hne hchildren hri
    rw [buildBoxTree.eq_def]
    simp [hdata, hne, hchildren, hri, buildChildren]

/-- Witness for C5 at concrete inputs: whitespace-only text produces no
box even with no context offered; "  hello  " with the Independent
Inline context id 3 produces the text run "hello". -/
theorem claim5_text_trimming_witness :
    buildBoxTree (Node.mk (.Text "   ") (.Full .Inline .Flow) []) none 4
      = .ok (none, 4)
    ∧ buildBoxTree
        (Node.mk (.Text "  hello  ") (.Full .Inline .Flow) [])
        (some ⟨3, .Independent .Inline⟩) 2
      = .ok (some (.textRun (.Text "  hello  ")
          ⟨3, .Independent .Inline⟩ "hello"), 2) :=
  ⟨claim5_text_trimming.1
      (Node.mk (.Text "   ") (.Full .Inline .Flow) []) "   " none 4
      rfl (by decide),
   claim5_text_trimming.2
      (Node.mk (.Text "  hello  ") (.Full .Inline .Flow) [])
      "  hello  " ⟨3, .Independent .Inline⟩ 2 rfl (by decide) rfl rfl⟩

/-- C6: building a document node with no offered context produces no box
for the document itself: it locates the first child element named
"html" and returns exactly the result of building that element with no
offered context; if no such child element exists it returns nothing. -/
theorem claim6_document_root_skipping (node : Node) (s : Nat)
    (h : node.data = .Document) :
    (∀ htmlNode, node.children.find? isHtmlElement = some htmlNode →
      buildBoxTree node none s = buildBoxTree htmlNode none s)
    ∧ (node.children.find? isHtmlElement = none →
      buildBoxTree node none s = .ok (none, s)) := by
  constructor
  · intro htmlNode hfind
    rw [buildBoxTree.eq_def]
    simp only [h]
    split
    · rename_i a ha
      rw [hfind] at ha
      cases ha
      rfl
    · rename_i ha
      rw [hfind] at ha
      cases ha
  · intro hfind
    rw [buildBoxTree.eq_def]
    simp only [h]
    split
    · rename_i a ha
      rw [hfind] at ha
      cases ha
    · rfl

/-- Witness for C6 at concrete inputs: a document whose children are a
doctype and an html element builds exactly as the html element does; a
childless document builds to nothing. -/
theorem claim6_document_root_skipping_witness :
    buildBoxTree (Node.mk .Document (.Full .Block .Flow)
      [Node.mk .Doctype Display.None [],
       Node.mk (.Element "html") (.Full .Block .Flow) []]) none 0
    = buildBoxTree
        (Node.mk (.Element "html") (.Full .Block .Flow) []) none 0
    ∧ buildBoxTree (Node.mk .Document (.Full .Block .Flow) []) none 0
      = .ok (none, 0) :=
  ⟨(claim6_document_root_skipping
      (Node.mk .Document (.Full .Block .Flow)
        [Node.mk .Doctype Display.None [],
         Node.mk (.Element "html") (.Full .Block .Flow) []]) 0 rfl).1
      (Node.mk (.Element "html") (.Full .Block .Flow) []) rfl,
   (claim6_document_root_skipping
      (Node.mk .Document (.Full .Block .Flow) []) 0 rfl).2 rfl⟩

/-- C7: a node whose resolved display is none generates no box and no
descendant boxes — building it returns "no box" without recursing into
its subtree (the result and allocator are independent of its children),
and when encountered during child iteration the node is skipped
entirely. -/
theorem claim7_display_none_suppression :
    (∀ (node : Node) (name : String) (pc : Option FormattingContextRef)
      (s : Nat), node.data = .Element name → node.display = Display.None →
      buildBoxTree node pc s = .ok (none, s))
    ∧ (∀ (pb : LayoutBox) (child : Node) (name : String)
      (rest : List Node) (s : Nat), child.data = .Element name →
      child.display = Display.None →
      buildChildren pb (child :: rest) s = buildChildren pb rest s) := by
  constructor
  · intro node name pc s hname hdisp
    rw [buildBoxTree_element node name hname]
    unfold buildBoxFromDisplay
    rw [hdisp]
  · intro pb child name rest s hname hdisp
    rw [buildChildren.eq_def]
    simp only [hname, hdisp]

/-- Witness for C7 at concrete inputs: a display-none div with a
displayed child produces no box, and as a child it is skipped. -/
theorem claim7_display_none_suppression_witness :
    buildBoxTree (Node.mk (.Element "div") Display.None
      [Node.mk (.Element "p") (.Full .Block .Flow) []])
      (some ⟨0, .Independent .Block⟩) 5
    = .ok (none, 5)
    ∧ buildChildren
        (.blockContainer (.Element "body") ⟨0, .Independent .Block⟩ [])
        [Node.mk (.Element "div") Display.None
          [Node.mk (.Element "p") (.Full .Block .Flow) []]] 2
      = buildChildren
        (.blockContainer (.Element "body") ⟨0, .Independent .Block⟩ [])
        [] 2 :=
  ⟨claim7_display_none_suppression.1
      (Node.mk (.Element "div") Display.None
        [Node.mk (.Element "p") (.Full .Block .Flow) []]) "div"
      (some ⟨0, .Independent .Block⟩) 5 rfl rfl,
   claim7_display_none_suppression.2
      (.blockContainer (.Element "body") ⟨0, .Independent .Block⟩ [])
      (Node.mk (.Element "div") Display.None
        [Node.mk (.Element "p") (.Full .Block .Flow) []]) "div" [] 2
      rfl rfl⟩

/-- C8: a block-outer/flow-root-inner node always becomes a block
container establishing a fresh Independent Block context (newly
allocated registry id), regardless of the offered context; in
particular, when any context is offered whose id was already allocated,
the box's context is not that offered instance. -/
theorem claim8_flow_root_new_context (node : Node)
    (pc : Option FormattingContextRef) (s : Nat)
    (hdisp : node.display = .Full .Block .FlowRoot) :
    buildBoxFromDisplay node pc s
      = .ok (some (.blockContainer node.data
          ⟨s, .Independent .Block⟩ []), s + 1)
    ∧ (∀ r, pc = some r → r.id < s →
        (LayoutBox.blockContainer node.data
          ⟨s, .Independent .Block⟩ []).formattingContext ≠ r) := by
  constructor
  · unfold buildBoxFromDisplay
    rw [hdisp]
    rfl
  · intro r hpc hlt he
    rw [← he] at hlt
    simp [LayoutBox.formattingContext] at hlt

/-- Witness for C8 at a concrete input: a flow-root div offered the
Independent Block context id 0 still establishes the fresh Independent
Block context id 3, distinct from the offered one. -/
theorem claim8_flow_root_new_context_witness :
    buildBoxFromDisplay
      (Node.mk (.Element "div") (.Full .Block .FlowRoot) [])
      (some ⟨0, .Independent .Block⟩) 3
    = .ok (some (.blockContainer (.Element "div")
        ⟨3, .Independent .Block⟩ []), 4)
    ∧ (LayoutBox.blockContainer (.Element "div")
        ⟨3, .Independent .Block⟩ []).formattingContext
      ≠ (⟨0, .Independent .Block⟩ : FormattingContextRef) :=
  ⟨(claim8_flow_root_new_context
      (Node.mk (.Element "div") (.Full .Block .FlowRoot) [])
      (some ⟨0, .Independent .Block⟩) 3 rfl).1,
   (claim8_flow_root_new_context
      (Node.mk (.Element "div") (.Full .Block .FlowRoot) [])
      (some ⟨0, .Independent .Block⟩) 3 rfl).2
      ⟨0, .Independent .Block⟩ rfl (by decide)⟩

/-- C9: an inline-outer/flow-root-inner element surfaces the explicit
unsupported result, a value distinct from a contract violation, instead
of being silently dropped — both when the node itself is built and when
it is dispatched as a child during child iteration. -/
theorem claim9_inline_flow_root_unsupported :
    (∀ (node : Node) (name : String) (pc : Option FormattingContextRef)
      (s : Nat), node.data = .Element name →
      node.display = .Full .Inline .FlowRoot →
      buildBoxTree node pc s = .error .unsupported)
    ∧ (∀ (pb : LayoutBox) (child : Node) (name : String)
      (rest : List Node) (s : Nat), child.data = .Element name →
      child.display = .Full .Inline .FlowRoot →
      buildChildren pb (child :: rest) s = .error .unsupported)
    ∧ BuildError.unsupported ≠ BuildError.contractViolation := by
  refine ⟨?_, ?_, by decide⟩
  · intro node name pc s hname hdisp
    rw [buildBoxTree_element node name hname]
    unfold buildBoxFromDisplay
    rw [hdisp]
  · intro pb child name rest s hname hdisp
    rw [buildChildren.eq_def]
    simp only [hname, hdisp]

/-- Witness for C9 at concrete inputs: an inline flow-root span errors
with the unsupported result when built directly and when dispatched as
a child. -/
theorem claim9_inline_flow_root_unsupported_witness :
    buildBoxTree (Node.mk (.Element "span") (.Full .Inline .FlowRoot) [])
      (some ⟨0, .Independent .Inline⟩) 1
    = .error .unsupported
    ∧ buildChildren
        (.blockContainer (.Element "body") ⟨0, .Independent .Block⟩ [])
        [Node.mk (.Element "span") (.Full .Inline .FlowRoot) []] 1
      = .error .unsupported :=
  ⟨claim9_inline_flow_root_unsupported.1
      (Node.mk (.Element "span") (.Full .Inline .FlowRoot) []) "span"
      (some ⟨0, .Independent .Inline⟩) 1 rfl rfl,
   claim9_inline_flow_root_unsupported.2.1
      (.blockContainer (.Element "body") ⟨0, .Independent .Block⟩ [])
      (Node.mk (.Element "span") (.Full .Inline .FlowRoot) []) "span"
      [] 1 rfl rfl⟩

/-- C10: for every parent box able to hold children, obtaining the
current inline container never fails: after
`getOrCreateInlineContainer` the lookup of the container always
succeeds (the unwrap in the source is unreachable), and when no
container existed a fresh one is appended as the parent's next child —
an anonymous block box establishing the fresh Independent Inline
context allocated at this call, pre-populated with one root inline box
participating in that same context instance. -/
theorem claim10_inline_container_total (pb : LayoutBox) (n : Node)
    (s : Nat) (hpb : pb.isTextRun = false) :
    ((getOrCreateInlineContainer pb n s).1.getInlineContainer).isSome
      = true
    ∧ (pb.getInlineContainer = none →
        getOrCreateInlineContainer pb n s
          = (pb.addChild (.anonymousBlock n.data ⟨s, .Independent .Inline⟩
              [.rootInline n.data ⟨s, .Independent .Inline⟩ []]),
            s + 1)) := by
  constructor
  · unfold getOrCreateInlineContainer
    split
    · rename_i hsome
      exact hsome
    · rename_i hnone
      unfold LayoutBox.getInlineContainer
      rw [children_addChild pb hpb]
      rw [getLast_append_single]
      rfl
  · intro hn
    unfold getOrCreateInlineContainer
    rw [hn]
    rfl

/-- Witness for C10 at a concrete input: an empty body block container
receives the freshly created anonymous inline container (context id 6)
and the follow-up lookup succeeds. -/
theorem claim10_inline_container_total_witness :
    ((getOrCreateInlineContainer
        (.blockContainer (.Element "body") ⟨0, .Independent .Block⟩ [])
        (Node.mk (.Element "span") (.Full .Inline .Flow) [])
        6).1.getInlineContainer).isSome = true
    ∧ getOrCreateInlineContainer
        (.blockContainer (.Element "body") ⟨0, .Independent .Block⟩ [])
        (Node.mk (.Element "span") (.Full .Inline .Flow) []) 6
      = ((LayoutBox.blockContainer (.Element "body")
            ⟨0, .Independent .Block⟩ []).addChild
          (.anonymousBlock (.Element "span") ⟨6, .Independent .Inline⟩
            [.rootInline (.Element "span")
              ⟨6, .Independent .Inline⟩ []]), 7) :=
  ⟨(claim10_inline_container_total
      (.blockContainer (.Element "body") ⟨0, .Independent .Block⟩ [])
      (Node.mk (.Element "span") (.Full .Inline .Flow) []) 6 rfl).1,
   (claim10_inline_container_total
      (.blockContainer (.Element "body") ⟨0, .Independent .Block⟩ [])
      (Node.mk (.Element "span") (.Full .Inline .Flow) []) 6 rfl).2 rfl⟩

end Kosmonaut
